import Mathlib

/-!
Verification of the weapon-range template tool and the deployable sheet
controller of the foundryvtt-lancer plugin, against its specification.

The embedding follows the two source files:
* `src/module/pixi/weapon-range-template.ts` (class `WeaponRangeTemplate`)
* the deployable actor sheet (`LancerDeployableSheet`).

Host-provided services (the Foundry `canvas`, its grid-geometry queries
`getCenter` / `measureDistance`, the token list, and `game.user`) are
modelled as explicit state records carrying function-valued fields, since
the plugin only consumes them.  JavaScript numbers are modelled exactly:
rational inputs as `ℚ`, and quantities that mix in the hexagonal scale
factor `sqrt 3 / 2` as elements of the ring `ℚ[sqrt 3]` (`Q3` below), so
that every equation the code computes with `Math.sqrt(3)/2` is stated and
decided exactly.
-/

/-- Elements of the ring `ℚ[sqrt 3]`: `q.a + q.b * sqrt 3`.  Used to track
the hexagonal scale factor `Math.sqrt(3) / 2` exactly. -/
structure Q3 where
  a : ℚ
  b : ℚ
deriving DecidableEq, Repr

instance : Add Q3 where
  add p q := ⟨p.a + q.a, p.b + q.b⟩

instance : Mul Q3 where
  mul p q := ⟨p.a * q.a + 3 * (p.b * q.b), p.a * q.b + p.b * q.a⟩

instance : OfNat Q3 n where
  ofNat := ⟨(n : ℚ), 0⟩

instance {ε α : Type} [DecidableEq ε] [DecidableEq α] :
    DecidableEq (Except ε α) := fun a b =>
  match a, b with
  | Except.error e1, Except.error e2 =>
    if h : e1 = e2 then isTrue (by rw [h])
    else isFalse (fun hc => by cases hc; exact h rfl)
  | Except.error _, Except.ok _ => isFalse (fun hc => by cases hc)
  | Except.ok _, Except.error _ => isFalse (fun hc => by cases hc)
  | Except.ok a1, Except.ok a2 =>
    if h : a1 = a2 then isTrue (by rw [h])
    else isFalse (fun hc => by cases hc; exact h rfl)

/-- Embed a rational number into `Q3`. -/
def Q3.ofRat (q : ℚ) : Q3 := ⟨q, 0⟩

/-- The constant `Math.sqrt(3) / 2` as an element of `Q3`. -/
def Q3.sqrt3half : Q3 := ⟨0, 1/2⟩

theorem Q3.add_def (p q : Q3) : p + q = ⟨p.a + q.a, p.b + q.b⟩ := rfl

theorem Q3.mul_def (p q : Q3) :
    p * q = ⟨p.a * q.a + 3 * (p.b * q.b), p.a * q.b + p.b * q.a⟩ := rfl

/-- A token placed on the canvas.  `x`, `y`, `w`, `h` give its bounding
box, `visible` its visibility, `width` its footprint size in cells
(`token.data.width`), and `center` the host-computed center point
(`token.center`). -/
structure Token where
  x : ℚ
  y : ℚ
  w : ℚ
  h : ℚ
  visible : Bool
  width : ℕ
  center : ℚ × ℚ
deriving DecidableEq, Repr

/-- The host canvas as the plugin consumes it: the `ready` flag, the grid
type (`canvas.grid.type`; 0 = gridless, 1 = square, 2 and above =
hexagonal variants), the grid-geometry queries `getCenter` and
`measureDistance`, and the placeable tokens. -/
structure CanvasState where
  ready : Bool
  gridType : ℕ
  getCenter : ℚ → ℚ → ℚ × ℚ
  measureDistance : ℚ × ℚ → ℚ × ℚ → ℚ
  tokens : List Token

/-- The host `game.user` record (id and color).  The source dereferences
`game.user!` with a non-null assertion, so the user is taken as present. -/
structure User where
  id : String
  color : String
deriving DecidableEq, Repr

/-- The host `game` global, restricted to what the plugin reads. -/
structure GameState where
  user : User

/-- The template data of a `WeaponRangeTemplate`: the measured-template
fields the constructor receives plus the plugin's `isBurst` flag and
`range` descriptor. -/
structure WeaponRangeTemplate where
  t : String
  user : String
  distance : Q3
  width : Q3
  direction : ℤ
  x : ℚ
  y : ℚ
  angle : ℕ
  fillColor : String
  isBurst : Bool
  rangeType : String
  rangeVal : ℚ
deriving DecidableEq, Repr

namespace WeaponRangeTemplate

/-- The `switch (type)` of `fromRange`: map a range type to the shape
kind of the template, or `none` for the `default: return null` arm. -/
def rangeShape : String → Option String
  | "Cone" => some "cone"
  | "Line" => some "ray"
  | "Burst" => some "circle"
  | "Blast" => some "circle"
  | _ => none

/-- Embedding of `WeaponRangeTemplate.fromRange({type, val})`.  Returns
`none` where the source returns `null` (canvas not ready, or an
unsupported range type). -/
def fromRange (gs : GameState) (cs : CanvasState) (type : String) (val : ℚ) :
    Option WeaponRangeTemplate :=
  if !cs.ready then none
  else
    let hex : Bool := decide (cs.gridType ≥ 2)
    match rangeShape type with
    | none => none
    | some shape =>
      let scale : Q3 := if hex then Q3.sqrt3half else 1
      some
        { t := shape
          user := gs.user.id
          distance := (Q3.ofRat val + Q3.ofRat (1/10)) * scale
          width := scale
          direction := 0
          x := 0
          y := 0
          angle := 58
          fillColor := gs.user.color
          isBurst := decide (type = "Burst")
          rangeType := type
          rangeVal := val }

/-- Embedding of `snapToCenter({x, y})`: throws when the canvas is not
ready, otherwise returns the grid-cell center of the given point. -/
def snapToCenter (cs : CanvasState) (p : ℚ × ℚ) : Except String (ℚ × ℚ) :=
  if !cs.ready then Except.error "Canvas not set up"
  else Except.ok (cs.getCenter p.1 p.2)

/-- Embedding of `getBurstDistance(size)`: throws when the canvas is not
ready, otherwise applies the empirical footprint offsets and the
hex/square scale factor to the template's `range.val`. -/
def getBurstDistance (cs : CanvasState) (rangeVal : ℚ) (size : ℕ) :
    Except String Q3 :=
  if !cs.ready then Except.error "Canvas not set up"
  else
    let hex : Bool := decide (cs.gridType > 1)
    let scale : Q3 := if hex then Q3.sqrt3half else 1
    let val := rangeVal
    let val :=
      if hex then
        let val := if size = 2 then val + (7/10 - if val > 2 then 1/10 else 0) else val
        let val := if size = 3 then val + 12/10 else val
        let val := if size = 4 then val + 15/10 else val
        val
      else
        let val := if size = 2 then val + 9/10 else val
        let val := if size = 3 then val + 14/10 else val
        let val := if size = 4 then val + 19/10 else val
        val
    Except.ok ((Q3.ofRat val + Q3.ofRat (1/10)) * scale)

/-- One step of the `reduce` inside `snapToToken`: skip hidden tokens and
keep whichever visible token is closest to the cursor.  The source
re-checks `canvas.ready` inside the callback and throws when it fails. -/
def snapReduceStep (cs : CanvasState) (p : ℚ × ℚ) (r : Option Token)
    (t : Token) : Except String (Option Token) :=
  if !cs.ready then Except.error "Canvas not set up"
  else if !t.visible then Except.ok r
  else
    match r with
    | none => Except.ok (some t)
    | some r0 =>
      if cs.measureDistance p t.center < cs.measureDistance p r0.center then
        Except.ok (some t)
      else Except.ok (some r0)

/-- Test from the `filter` inside `snapToToken`: is the cursor strictly
inside the token's bounding box. -/
def tokenContains (t : Token) (p : ℚ × ℚ) : Bool :=
  decide (t.x < p.1) && decide (t.x + t.w > p.1) &&
    decide (t.y < p.2) && decide (t.y + t.h > p.2)

/-- Embedding of `snapToToken({x, y})`.  Returns the snapped point
together with the template updated in place (`this.data.distance`): the
closest visible token under the cursor wins and resizes the burst;
otherwise distance is reset to 0 and the point falls back to
`snapToCenter`. -/
def snapToToken (cs : CanvasState) (tmpl : WeaponRangeTemplate)
    (p : ℚ × ℚ) : Except String ((ℚ × ℚ) × WeaponRangeTemplate) := do
  if !cs.ready then Except.error "Canvas not set up"
  else
    let contained := cs.tokens.filter (fun t => tokenContains t p)
    let token ← contained.foldlM (snapReduceStep cs p) none
    match token with
    | some tok => do
      let d ← getBurstDistance cs tmpl.rangeVal tok.width
      Except.ok (tok.center, { tmpl with distance := d })
    | none => do
      let c ← snapToCenter cs p
      Except.ok (c, { tmpl with distance := Q3.ofRat 0 })

end WeaponRangeTemplate

/-- The mutable state the preview listeners close over: the template in
progress, the throttle timestamp `moveTime`, and a counter of applied
snap/refresh updates (each `this.refresh()` call of the move handler). -/
structure PreviewState where
  tmpl : WeaponRangeTemplate
  moveTime : ℤ
  refreshCount : ℕ
deriving DecidableEq, Repr

namespace WeaponRangeTemplate

/-- Embedding of the mouse-move handler `handlers.mm`.  `now` is the
value of `Date.now()` at delivery and `p` the pointer position in layer
coordinates.  Inside the 20 ms throttle window the handler returns
without touching the state; otherwise it snaps (to a token for bursts,
to the cell center otherwise), writes the position, refreshes, and
records `moveTime`. -/
def mmStep (cs : CanvasState) (s : PreviewState) (now : ℤ) (p : ℚ × ℚ) :
    Except String PreviewState :=
  if now - s.moveTime ≤ 20 then Except.ok s
  else do
    let (snapped, tmpl') ←
      if s.tmpl.isBurst then snapToToken cs s.tmpl p
      else (snapToCenter cs p).map (fun c => (c, s.tmpl))
    Except.ok
      { tmpl := { tmpl' with x := snapped.1, y := snapped.2 }
        moveTime := now
        refreshCount := s.refreshCount + 1 }

/-- Sign of a wheel delta, as `Math.sign` computes it. -/
def qsign (q : ℚ) : ℤ :=
  if q > 0 then 1 else if q < 0 then -1 else 0

/-- Embedding of the wheel handler `handlers.mw`: rotate the template by
`5` degrees, or by the grid-dependent coarse step (`30` above square
grids, `15` otherwise) while shift is held, signed by the wheel
direction.  A non-ready canvas makes the handler return early. -/
def mwStep (cs : CanvasState) (direction : ℤ) (shiftKey : Bool)
    (deltaY : ℚ) : ℤ :=
  if !cs.ready then direction
  else
    let delta : ℤ := if cs.gridType > 1 then 30 else 15
    let snap : ℤ := if shiftKey then delta else 5
    direction + snap * qsign deltaY

/-- Iterated wheel events: `n` deliveries of the wheel handler with the
same modifier and delta. -/
def mwIterate (cs : CanvasState) (shiftKey : Bool) (deltaY : ℚ) :
    ℕ → ℤ → ℤ
  | 0, d => d
  | n + 1, d => mwIterate cs shiftKey deltaY n (mwStep cs d shiftKey deltaY)

end WeaponRangeTemplate

/-- Observable host effects of the confirm/cancel handlers, in delivery
order: clearing the preview container, detaching each of the four
listeners, reactivating the initial layer, and the scene-object creation
call `createEmbeddedEntity("MeasuredTemplate", this.data)`. -/
inductive HostEffect where
  | removePreviewChildren
  | offMousemove
  | offMousedown
  | clearContextMenu
  | clearWheel
  | activateInitialLayer
  | createTemplate
deriving DecidableEq, Repr

namespace WeaponRangeTemplate

/-- Effect trace of the right-click (cancel) handler `handlers.rc`. -/
def rcTrace (ready : Bool) : List HostEffect :=
  if !ready then []
  else
    [HostEffect.removePreviewChildren, HostEffect.offMousemove,
      HostEffect.offMousedown, HostEffect.clearContextMenu,
      HostEffect.clearWheel, HostEffect.activateInitialLayer]

/-- Effect trace of the left-click (confirm) handler `handlers.lc`: it
first invokes the cancel handler and then creates the template in the
scene. -/
def lcTrace (ready : Bool) : List HostEffect :=
  if !ready then []
  else rcTrace ready ++ [HostEffect.createTemplate]

/-- The four listener detachments plus the layer restoration, the
teardown effects the spec talks about. -/
def teardownEffects : List HostEffect :=
  [HostEffect.offMousemove, HostEffect.offMousedown,
    HostEffect.clearContextMenu, HostEffect.clearWheel,
    HostEffect.activateInitialLayer]

/-- Effect `e1` occurs before effect `e2` in trace `l` (both present,
first occurrence of `e1` strictly earlier). -/
def occursBefore (l : List HostEffect) (e1 e2 : HostEffect) : Prop :=
  e1 ∈ l ∧ e2 ∈ l ∧ l.indexOf e1 < l.indexOf e2

instance (l : List HostEffect) (e1 e2 : HostEffect) :
    Decidable (occursBefore l e1 e2) := by
  unfold occursBefore
  infer_instance

end WeaponRangeTemplate

/-- The render model of the deployable sheet, as `getData()` sees it
after the host base class has assembled it: the sheet record's `name`
(`data.data.name`), the actor's name (`data.actor.name`), and all other
fields, kept abstract as an association list. -/
structure DeployableSheetData where
  dataName : String
  actorName : String
  otherFields : List (String × String)
deriving DecidableEq, Repr

namespace LancerDeployableSheet

/-- Embedding of the name-defaulting step of
`LancerDeployableSheet.getData()`: the host `super.getData()` result `m`
gets its blank sheet name replaced by the actor's name; everything else
is returned unchanged. -/
def getData (m : DeployableSheetData) : DeployableSheetData :=
  if m.dataName = "" then { m with dataName := m.actorName } else m

end LancerDeployableSheet

/-- Rotation increment as the spec words it: 5 degrees without the
modifier key, and with it 15 degrees on square-adjacent grids and 30
degrees otherwise. -/
def specIncrement (squareAdjacent shiftKey : Bool) : ℤ :=
  if shiftKey then (if squareAdjacent then 15 else 30) else 5

/-- Burst footprint offset as the spec tabulates it: on hex grids +0.7
for size 2 (reduced by 0.1 when `val > 2`), +1.2 for size 3, +1.5 for
size 4; on square grids +0.9, +1.4, +1.9; no offset for size 1. -/
def specBurstOffset (hex : Bool) (size : ℕ) (val : ℚ) : ℚ :=
  if hex then
    if size = 2 then 7/10 - (if val > 2 then 1/10 else 0)
    else if size = 3 then 12/10
    else if size = 4 then 15/10
    else 0
  else
    if size = 2 then 9/10
    else if size = 3 then 14/10
    else if size = 4 then 19/10
    else 0

/-! Helper lemmas shared by several claims. -/

theorem snapToCenter_ready (cs : CanvasState) (p : ℚ × ℚ)
    (h : cs.ready = true) :
    WeaponRangeTemplate.snapToCenter cs p =
      Except.ok (cs.getCenter p.1 p.2) := by
  simp [WeaponRangeTemplate.snapToCenter, h]

theorem snapToCenter_notReady (cs : CanvasState) (p : ℚ × ℚ)
    (h : cs.ready = false) :
    WeaponRangeTemplate.snapToCenter cs p =
      Except.error "Canvas not set up" := by
  simp [WeaponRangeTemplate.snapToCenter, h]

theorem getBurstDistance_ready_ok (cs : CanvasState) (val : ℚ) (size : ℕ)
    (h : cs.ready = true) :
    ∃ d, WeaponRangeTemplate.getBurstDistance cs val size = Except.ok d := by
  simp only [WeaponRangeTemplate.getBurstDistance, h]
  exact ⟨_, rfl⟩

theorem snapReduce_fold_ok (cs : CanvasState) (p : ℚ × ℚ)
    (h : cs.ready = true) (l : List Token) (r : Option Token) :
    ∃ r', l.foldlM (WeaponRangeTemplate.snapReduceStep cs p) r =
      Except.ok r' := by
  induction l generalizing r with
  | nil => exact ⟨r, rfl⟩
  | cons t ts ih =>
    simp only [List.foldlM_cons]
    have hstep : ∃ r1, WeaponRangeTemplate.snapReduceStep cs p r t =
        Except.ok r1 := by
      simp only [WeaponRangeTemplate.snapReduceStep, h]
      cases ht : t.visible with
      | false => exact ⟨r, rfl⟩
      | true =>
        cases r with
        | none => exact ⟨some t, rfl⟩
        | some r0 =>
          by_cases hd :
              cs.measureDistance p t.center < cs.measureDistance p r0.center
          · exact ⟨some t, by simp [hd]⟩
          · exact ⟨some r0, by simp [hd]⟩
    obtain ⟨r1, hr1⟩ := hstep
    rw [hr1]
    simpa using ih r1

theorem exceptBind_ok {α β : Type} (a : α) (k : α → Except String β) :
    (Except.ok a >>= k) = k a := rfl

theorem snapToToken_ready_ok (cs : CanvasState)
    (tmpl : WeaponRangeTemplate) (p : ℚ × ℚ) (h : cs.ready = true) :
    ∃ r, WeaponRangeTemplate.snapToToken cs tmpl p = Except.ok r := by
  obtain ⟨r', hr'⟩ := snapReduce_fold_ok cs p h
    (cs.tokens.filter (fun t => WeaponRangeTemplate.tokenContains t p)) none
  cases r' with
  | some tok =>
    obtain ⟨d, hd⟩ :=
      getBurstDistance_ready_ok cs tmpl.rangeVal tok.width h
    refine ⟨(tok.center, { tmpl with distance := d }), ?_⟩
    simp only [WeaponRangeTemplate.snapToToken, h, Bool.not_true,
      Bool.false_eq_true, if_false]
    rw [hr', exceptBind_ok]
    show (WeaponRangeTemplate.getBurstDistance cs tmpl.rangeVal tok.width >>=
      fun d => Except.ok (tok.center, { tmpl with distance := d })) = _
    rw [hd, exceptBind_ok]
  | none =>
    refine ⟨(cs.getCenter p.1 p.2, { tmpl with distance := Q3.ofRat 0 }), ?_⟩
    simp only [WeaponRangeTemplate.snapToToken, h, Bool.not_true,
      Bool.false_eq_true, if_false]
    rw [hr', exceptBind_ok]
    show (WeaponRangeTemplate.snapToCenter cs p >>=
      fun c => Except.ok (c, { tmpl with distance := Q3.ofRat 0 })) = _
    rw [snapToCenter_ready cs p h, exceptBind_ok]

theorem snapToToken_notReady (cs : CanvasState)
    (tmpl : WeaponRangeTemplate) (p : ℚ × ℚ) (h : cs.ready = false) :
    WeaponRangeTemplate.snapToToken cs tmpl p =
      Except.error "Canvas not set up" := by
  simp [WeaponRangeTemplate.snapToToken, h]

theorem getBurstDistance_notReady (cs : CanvasState) (val : ℚ) (size : ℕ)
    (h : cs.ready = false) :
    WeaponRangeTemplate.getBurstDistance cs val size =
      Except.error "Canvas not set up" := by
  simp [WeaponRangeTemplate.getBurstDistance, h]

/-- C9: each snapping helper (`snapToCenter`, `snapToToken`,
`getBurstDistance`) raises a hard failure when the canvas is not ready,
and under the precondition that the canvas is ready the error branch is
unreachable: every such call returns a value. -/
theorem snappingHelpers_canvas_precondition (cs : CanvasState)
    (tmpl : WeaponRangeTemplate) (p : ℚ × ℚ) (val : ℚ) (size : ℕ) :
    (cs.ready = false →
      WeaponRangeTemplate.snapToCenter cs p =
          Except.error "Canvas not set up" ∧
        WeaponRangeTemplate.snapToToken cs tmpl p =
          Except.error "Canvas not set up" ∧
        WeaponRangeTemplate.getBurstDistance cs val size =
          Except.error "Canvas not set up") ∧
    (cs.ready = true →
      (∃ c, WeaponRangeTemplate.snapToCenter cs p = Except.ok c) ∧
        (∃ r, WeaponRangeTemplate.snapToToken cs tmpl p = Except.ok r) ∧
        (∃ d, WeaponRangeTemplate.getBurstDistance cs val size =
          Except.ok d)) := by
  constructor
  · intro h
    exact ⟨snapToCenter_notReady cs p h, snapToToken_notReady cs tmpl p h,
      getBurstDistance_notReady cs val size h⟩
  · intro h
    exact ⟨⟨_, snapToCenter_ready cs p h⟩, snapToToken_ready_ok cs tmpl p h,
      getBurstDistance_ready_ok cs val size h⟩

/-- A concrete canvas that is not ready, for witnesses. -/
def sampleCanvasOff : CanvasState :=
  { ready := false
    gridType := 1
    getCenter := fun x y => (x, y)
    measureDistance := fun _ _ => 0
    tokens := [] }

/-- A concrete ready canvas with a square grid and no tokens, for
witnesses. -/
def sampleCanvasSquare : CanvasState :=
  { ready := true
    gridType := 1
    getCenter := fun x y => (x + 1, y + 2)
    measureDistance := fun _ _ => 0
    tokens := [] }

/-- A concrete template, for witnesses. -/
def sampleTemplate : WeaponRangeTemplate :=
  { t := "circle"
    user := "u1"
    distance := Q3.ofRat 0
    width := 1
    direction := 0
    x := 0
    y := 0
    angle := 58
    fillColor := "#ff0000"
    isBurst := true
    rangeType := "Burst"
    rangeVal := 5 }

/-- Witness for C9 at concrete canvases, discharging both readiness
hypotheses of the theorem. -/
theorem snappingHelpers_canvas_precondition_witness :
    WeaponRangeTemplate.snapToCenter sampleCanvasOff (3, 4) =
        Except.error "Canvas not set up" ∧
      ∃ c, WeaponRangeTemplate.snapToCenter sampleCanvasSquare (3, 4) =
        Except.ok c := by
  refine ⟨?_, ?_⟩
  · exact ((snappingHelpers_canvas_precondition sampleCanvasOff
      sampleTemplate (3, 4) 5 2).1 rfl).1
  · exact ((snappingHelpers_canvas_precondition sampleCanvasSquare
      sampleTemplate (3, 4) 5 2).2 rfl).1

/-- A concrete game state for witnesses. -/
def sampleGame : GameState := { user := { id := "u1", color := "#ff0000" } }

/-- C1: with a ready canvas, `fromRange` maps the range type to the shape
kind Cone to cone, Line to ray, Burst and Blast to circle, and returns
`none` (no tool, no placement) for any other type string. -/
theorem fromRange_shape_mapping (gs : GameState) (cs : CanvasState)
    (val : ℚ) (hready : cs.ready = true) :
    ((WeaponRangeTemplate.fromRange gs cs "Cone" val).map
        WeaponRangeTemplate.t = some "cone") ∧
    ((WeaponRangeTemplate.fromRange gs cs "Line" val).map
        WeaponRangeTemplate.t = some "ray") ∧
    ((WeaponRangeTemplate.fromRange gs cs "Burst" val).map
        WeaponRangeTemplate.t = some "circle") ∧
    ((WeaponRangeTemplate.fromRange gs cs "Blast" val).map
        WeaponRangeTemplate.t = some "circle") ∧
    (∀ type : String,
      type ≠ "Cone" → type ≠ "Line" → type ≠ "Burst" → type ≠ "Blast" →
        WeaponRangeTemplate.fromRange gs cs type val = none) := by
  refine ⟨?_, ?_, ?_, ?_, ?_⟩
  · simp [WeaponRangeTemplate.fromRange, WeaponRangeTemplate.rangeShape,
      hready]
  · simp [WeaponRangeTemplate.fromRange, WeaponRangeTemplate.rangeShape,
      hready]
  · simp [WeaponRangeTemplate.fromRange, WeaponRangeTemplate.rangeShape,
      hready]
  · simp [WeaponRangeTemplate.fromRange, WeaponRangeTemplate.rangeShape,
      hready]
  · intro type h1 h2 h3 h4
    have hshape : WeaponRangeTemplate.rangeShape type = none := by
      unfold WeaponRangeTemplate.rangeShape
      split
      · exact absurd rfl h1
      · exact absurd rfl h2
      · exact absurd rfl h3
      · exact absurd rfl h4
      · rfl
    simp [WeaponRangeTemplate.fromRange, hready, hshape]

/-- Witness for C1 at a concrete ready canvas: the shape kind for a cone
and the absence of a tool for an unsupported type. -/
theorem fromRange_shape_mapping_witness :
    ((WeaponRangeTemplate.fromRange sampleGame sampleCanvasSquare
        "Cone" 5).map WeaponRangeTemplate.t = some "cone") ∧
    WeaponRangeTemplate.fromRange sampleGame sampleCanvasSquare
        "Threat" 5 = none := by
  have h := fromRange_shape_mapping sampleGame sampleCanvasSquare 5 rfl
  exact ⟨h.1, h.2.2.2.2 "Threat" (by decide) (by decide) (by decide)
    (by decide)⟩

/-- C2: for every `val ≥ 0` and supported range type, the template built
by `fromRange` carries the initial distance `(val + 0.1) * scale`, where
the scale is `1` on non-hexagonal grids and `sqrt 3 / 2` on hexagonal
grids (grid type at least 2). -/
theorem fromRange_distance_formula (gs : GameState) (cs : CanvasState)
    (type : String) (val : ℚ) (hready : cs.ready = true) (hval : 0 ≤ val)
    (hsupp : type = "Cone" ∨ type = "Line" ∨ type = "Burst" ∨
      type = "Blast") :
    ∃ tmpl, WeaponRangeTemplate.fromRange gs cs type val = some tmpl ∧
      tmpl.distance = (Q3.ofRat val + Q3.ofRat (1/10)) *
        (if cs.gridType ≥ 2 then Q3.sqrt3half else 1) := by
  have hgoal : ∀ shape, WeaponRangeTemplate.rangeShape type = some shape →
      ∃ tmpl, WeaponRangeTemplate.fromRange gs cs type val = some tmpl ∧
        tmpl.distance = (Q3.ofRat val + Q3.ofRat (1/10)) *
          (if cs.gridType ≥ 2 then Q3.sqrt3half else 1) := by
    intro shape hshape
    have hfr : WeaponRangeTemplate.fromRange gs cs type val = some
        { t := shape
          user := gs.user.id
          distance := (Q3.ofRat val + Q3.ofRat (1/10)) *
            (if decide (cs.gridType ≥ 2) = true then Q3.sqrt3half else 1)
          width := if decide (cs.gridType ≥ 2) = true then Q3.sqrt3half else 1
          direction := 0
          x := 0
          y := 0
          angle := 58
          fillColor := gs.user.color
          isBurst := decide (type = "Burst")
          rangeType := type
          rangeVal := val } := by
      simp only [WeaponRangeTemplate.fromRange, hready, Bool.not_true,
        Bool.false_eq_true, if_false, hshape]
    refine ⟨_, hfr, ?_⟩
    by_cases hg : cs.gridType ≥ 2 <;> simp [hg]
  rcases hsupp with h | h | h | h <;> subst h
  · exact hgoal "cone" rfl
  · exact hgoal "ray" rfl
  · exact hgoal "circle" rfl
  · exact hgoal "circle" rfl

/-- Witness for C2 on a concrete square grid and a concrete hex grid. -/
theorem fromRange_distance_formula_witness :
    (0 : ℚ) ≤ 5 ∧
    (∃ tmpl, WeaponRangeTemplate.fromRange sampleGame sampleCanvasSquare
        "Blast" 5 = some tmpl ∧
      tmpl.distance = (Q3.ofRat 5 + Q3.ofRat (1/10)) * 1) := by
  refine ⟨by norm_num, ?_⟩
  have h := fromRange_distance_formula sampleGame sampleCanvasSquare
    "Blast" 5 rfl (by norm_num) (Or.inr (Or.inr (Or.inr rfl)))
  simpa using h

/-- C8: the name-defaulting step of `getData` replaces an empty sheet
name with the actor's name, leaves a non-empty sheet name unchanged, and
changes no other field of the render model. -/
theorem getData_name_defaulting (m : DeployableSheetData) :
    (m.dataName = "" →
      LancerDeployableSheet.getData m =
        { m with dataName := m.actorName }) ∧
    (m.dataName ≠ "" → LancerDeployableSheet.getData m = m) ∧
    (LancerDeployableSheet.getData m).actorName = m.actorName ∧
    (LancerDeployableSheet.getData m).otherFields = m.otherFields := by
  refine ⟨?_, ?_, ?_, ?_⟩
  · intro h
    simp [LancerDeployableSheet.getData, h]
  · intro h
    simp [LancerDeployableSheet.getData, h]
  · by_cases h : m.dataName = "" <;> simp [LancerDeployableSheet.getData, h]
  · by_cases h : m.dataName = "" <;> simp [LancerDeployableSheet.getData, h]

/-- Witness for C8 at concrete render models: a blank sheet name takes
the actor's name, a non-empty one stays. -/
theorem getData_name_defaulting_witness :
    LancerDeployableSheet.getData
        { dataName := "", actorName := "Turret", otherFields := [("hp", "5")] } =
      { dataName := "Turret", actorName := "Turret",
        otherFields := [("hp", "5")] } ∧
    LancerDeployableSheet.getData
        { dataName := "Drone", actorName := "Turret", otherFields := [] } =
      { dataName := "Drone", actorName := "Turret", otherFields := [] } := by
  constructor
  · exact (getData_name_defaulting
      { dataName := "", actorName := "Turret",
        otherFields := [("hp", "5")] }).1 rfl
  · exact (getData_name_defaulting
      { dataName := "Drone", actorName := "Turret",
        otherFields := [] }).2.1 (by decide)

/-- C6: with a ready canvas, a wheel event rotates the template by 5
degrees without the modifier key and by the coarse increment with it (15
degrees on square-adjacent grids, grid type at most 1, and 30 degrees
otherwise), signed by the wheel direction; the accumulated direction is
unbounded: `n` positive wheel steps add exactly `5 * n` degrees with no
modulo-360 normalization. -/
theorem mwStep_rotation (cs : CanvasState) (d : ℤ) (shiftKey : Bool)
    (deltaY : ℚ) (hready : cs.ready = true) :
    (deltaY > 0 →
      WeaponRangeTemplate.mwStep cs d shiftKey deltaY =
        d + specIncrement (decide (cs.gridType ≤ 1)) shiftKey) ∧
    (deltaY < 0 →
      WeaponRangeTemplate.mwStep cs d shiftKey deltaY =
        d - specIncrement (decide (cs.gridType ≤ 1)) shiftKey) ∧
    (∀ n : ℕ, ∀ d0 : ℤ,
      WeaponRangeTemplate.mwIterate cs false 1 n d0 = d0 + 5 * n) := by
  have hsnap : ∀ b : Bool,
      (if shiftKey then (if cs.gridType > 1 then (30 : ℤ) else 15) else 5) =
        specIncrement (decide (cs.gridType ≤ 1)) shiftKey := by
    intro _
    by_cases hg : cs.gridType ≤ 1 <;>
      cases shiftKey <;>
        simp [specIncrement, hg, Nat.lt_iff_add_one_le, Nat.not_le] at * <;>
          omega
  refine ⟨?_, ?_, ?_⟩
  · intro hpos
    simp only [WeaponRangeTemplate.mwStep, hready, Bool.not_true,
      Bool.false_eq_true, if_false, WeaponRangeTemplate.qsign, hpos,
      if_true, mul_one]
    rw [← hsnap true]
  · intro hneg
    have hnpos : ¬ deltaY > 0 := by linarith
    simp only [WeaponRangeTemplate.mwStep, hready, Bool.not_true,
      Bool.false_eq_true, if_false, WeaponRangeTemplate.qsign, hneg,
      hnpos, if_true, if_false, mul_neg_one]
    rw [← hsnap true]
    ring
  · intro n
    induction n with
    | zero =>
      intro d0
      simp [WeaponRangeTemplate.mwIterate]
    | succ k ih =>
      intro d0
      have hstep : WeaponRangeTemplate.mwStep cs d0 false 1 = d0 + 5 := by
        simp [WeaponRangeTemplate.mwStep, hready, WeaponRangeTemplate.qsign]
      simp only [WeaponRangeTemplate.mwIterate, hstep, ih]
      push_cast
      ring

/-- Witness for C6 on a concrete ready hex canvas: a shift-modified
upward wheel step adds 30 degrees, and 100 plain steps add 500 degrees,
past any 360-degree wraparound. -/
theorem mwStep_rotation_witness :
    (1 : ℚ) > 0 ∧
    WeaponRangeTemplate.mwStep
        { sampleCanvasSquare with gridType := 2 } 0 true 1 = 30 ∧
    WeaponRangeTemplate.mwIterate
        { sampleCanvasSquare with gridType := 2 } false 1 100 0 = 500 := by
  have h := mwStep_rotation { sampleCanvasSquare with gridType := 2 }
    0 true 1 rfl
  refine ⟨by norm_num, ?_, ?_⟩
  · have := h.1 (by norm_num)
    simpa [specIncrement] using this
  · have := h.2.2 100 0
    simpa using this

/-- Counterexample for C7: in the confirm handler's effect trace on a
ready canvas, the scene-object creation call does not precede the
listener teardown; the teardown comes first. -/
theorem lcTrace_create_before_teardown_false :
    ¬ WeaponRangeTemplate.occursBefore (WeaponRangeTemplate.lcTrace true)
      HostEffect.createTemplate HostEffect.offMousemove := by
  decide

/-- C7 (amended): on confirmation with a ready canvas, the four
listeners are torn down and the previously active layer restored first,
and then the current placement state is handed to the host's
scene-object creation call, which appears exactly once in the trace. -/
theorem lcTrace_teardown_then_create :
    (∀ e ∈ WeaponRangeTemplate.teardownEffects,
      WeaponRangeTemplate.occursBefore (WeaponRangeTemplate.lcTrace true) e
        HostEffect.createTemplate) ∧
    (WeaponRangeTemplate.lcTrace true).count HostEffect.createTemplate
      = 1 := by
  decide

/-- Witness for C7 evaluating the amended order at one teardown effect:
mouse-move detachment precedes template creation in the confirm trace. -/
theorem lcTrace_teardown_then_create_witness :
    WeaponRangeTemplate.occursBefore (WeaponRangeTemplate.lcTrace true)
      HostEffect.offMousemove HostEffect.createTemplate := by
  exact lcTrace_teardown_then_create.1 HostEffect.offMousemove (by decide)

/-- C3: with a ready canvas, for `val ≥ 0` and footprint sizes 1 to 4,
`getBurstDistance` returns `(val' + 0.1) * scale` where `val'` adds the
grid-dependent empirical offset of `specBurstOffset` (hex: +0.7 for
size 2 less 0.1 when `val > 2`, +1.2 for size 3, +1.5 for size 4;
square: +0.9, +1.4, +1.9) and the scale is the hex/square factor; in
particular on a square grid with size 2 the result is
`(val + 0.9 + 0.1) * 1`. -/
theorem getBurstDistance_table (cs : CanvasState) (val : ℚ) (size : ℕ)
    (hready : cs.ready = true) (hval : 0 ≤ val)
    (hsize : size = 1 ∨ size = 2 ∨ size = 3 ∨ size = 4) :
    WeaponRangeTemplate.getBurstDistance cs val size =
      Except.ok
        ((Q3.ofRat (val + specBurstOffset (decide (cs.gridType > 1))
            size val) + Q3.ofRat (1/10)) *
          (if cs.gridType > 1 then Q3.sqrt3half else 1)) ∧
    (cs.gridType = 1 → size = 2 →
      WeaponRangeTemplate.getBurstDistance cs val size =
        Except.ok (Q3.ofRat (val + 9/10 + 1/10) * 1)) := by
  constructor
  · by_cases hg : cs.gridType > 1 <;>
      rcases hsize with h | h | h | h <;> subst h <;>
        by_cases hv : val > 2 <;>
          simp [WeaponRangeTemplate.getBurstDistance, specBurstOffset,
            hready, hg, hv, Q3.ofRat, Q3.add_def, Q3.mul_def,
            Q3.sqrt3half] <;> ring_nf <;> norm_num
  · intro hg h2
    subst h2
    have hg' : ¬ cs.gridType > 1 := by omega
    simp [WeaponRangeTemplate.getBurstDistance, hready, hg', Q3.ofRat,
      Q3.add_def, Q3.mul_def]

/-- Witness for C3: on a concrete ready square-grid canvas with size 2
and `val = 5` the distance is `(5 + 0.9 + 0.1) * 1`. -/
theorem getBurstDistance_table_witness :
    (0 : ℚ) ≤ 5 ∧
    WeaponRangeTemplate.getBurstDistance sampleCanvasSquare 5 2 =
      Except.ok (Q3.ofRat (5 + 9/10 + 1/10) * 1) := by
  refine ⟨by norm_num, ?_⟩
  exact (getBurstDistance_table sampleCanvasSquare 5 2 rfl (by norm_num)
    (Or.inr (Or.inl rfl))).2 rfl rfl

theorem snapReduce_fold_invisible (cs : CanvasState) (p : ℚ × ℚ)
    (h : cs.ready = true) :
    ∀ l : List Token, (∀ t ∈ l, t.visible = false) →
      l.foldlM (WeaponRangeTemplate.snapReduceStep cs p)
        (none : Option Token) = Except.ok none := by
  intro l
  induction l with
  | nil => intro _; rfl
  | cons t ts ih =>
    intro hall
    have ht : t.visible = false := hall t (List.mem_cons_self t ts)
    have hstep : WeaponRangeTemplate.snapReduceStep cs p none t =
        Except.ok none := by
      simp [WeaponRangeTemplate.snapReduceStep, h, ht]
    simp only [List.foldlM_cons, hstep, exceptBind_ok]
    exact ih (fun u hu => hall u (List.mem_cons_of_mem t hu))

/-- C5: with a ready canvas, when no visible token's bounding box
contains the pointer, `snapToToken` returns the same point as
`snapToCenter` and sets the template's distance to 0. -/
theorem snapToToken_fallback (cs : CanvasState)
    (tmpl : WeaponRangeTemplate) (p : ℚ × ℚ) (hready : cs.ready = true)
    (hno : ∀ t ∈ cs.tokens, t.visible = true →
      WeaponRangeTemplate.tokenContains t p = false) :
    ∃ c, WeaponRangeTemplate.snapToCenter cs p = Except.ok c ∧
      WeaponRangeTemplate.snapToToken cs tmpl p =
        Except.ok (c, { tmpl with distance := Q3.ofRat 0 }) := by
  have hinv : ∀ t ∈ cs.tokens.filter
      (fun t => WeaponRangeTemplate.tokenContains t p), t.visible = false := by
    intro t ht
    rw [List.mem_filter] at ht
    cases hv : t.visible with
    | false => rfl
    | true =>
      have := hno t ht.1 hv
      rw [this] at ht
      exact absurd ht.2 (by simp)
  have hfold := snapReduce_fold_invisible cs p hready _ hinv
  refine ⟨cs.getCenter p.1 p.2, snapToCenter_ready cs p hready, ?_⟩
  simp only [WeaponRangeTemplate.snapToToken, hready, Bool.not_true,
    Bool.false_eq_true, if_false]
  rw [hfold, exceptBind_ok]
  show (WeaponRangeTemplate.snapToCenter cs p >>=
    fun c => Except.ok (c, { tmpl with distance := Q3.ofRat 0 })) = _
  rw [snapToCenter_ready cs p hready, exceptBind_ok]

/-- A concrete visible token far away from the probed pointer position,
for witnesses. -/
def sampleTokenFar : Token :=
  { x := 100, y := 100, w := 10, h := 10, visible := true, width := 1,
    center := (105, 105) }

/-- A ready square-grid canvas holding only `sampleTokenFar`. -/
def sampleCanvasFarToken : CanvasState :=
  { sampleCanvasSquare with tokens := [sampleTokenFar] }

/-- Witness for C5: with the pointer at (3, 4) and only a far-away
token on the canvas, burst snapping falls back to the cell center and
zeroes the distance. -/
theorem snapToToken_fallback_witness :
    ∃ c, WeaponRangeTemplate.snapToCenter sampleCanvasFarToken (3, 4) =
        Except.ok c ∧
      WeaponRangeTemplate.snapToToken sampleCanvasFarToken sampleTemplate
          (3, 4) =
        Except.ok (c, { sampleTemplate with distance := Q3.ofRat 0 }) := by
  refine snapToToken_fallback sampleCanvasFarToken sampleTemplate (3, 4)
    rfl ?_
  intro t ht _
  simp only [sampleCanvasFarToken, sampleCanvasSquare, List.mem_singleton]
    at ht
  subst ht
  decide

theorem exceptMap_ok {α β : Type} (a : α) (f : α → β) :
    (Except.ok a : Except String α).map f = Except.ok (f a) := rfl

theorem exceptMap_error {α β : Type} (e : String) (f : α → β) :
    (Except.error e : Except String α).map f =
      (Except.error e : Except String β) := rfl

theorem exceptBind_error {α β : Type} (e : String)
    (k : α → Except String β) :
    ((Except.error e : Except String α) >>= k) = Except.error e := rfl

/-- A concrete non-burst (Blast) template, for witnesses and
counterexamples. -/
def sampleBlast : WeaponRangeTemplate :=
  { sampleTemplate with isBurst := false, rangeType := "Blast" }

/-- Counterexample for C4: a first move event applied at time 100 ms and
a second delivered at 120 ms are exactly 20 ms apart, which the claim
says must both apply; the code's `now - moveTime <= 20` check makes the
second a no-op that leaves the state unchanged. -/
theorem mmStep_boundary_counterexample :
    WeaponRangeTemplate.mmStep sampleCanvasSquare
        { tmpl := sampleBlast, moveTime := 0, refreshCount := 0 } 100
        (3, 4) =
      Except.ok
        { tmpl := { sampleBlast with x := 4, y := 6 }, moveTime := 100,
          refreshCount := 1 } ∧
    (120 : ℤ) - 100 ≥ 20 ∧
    WeaponRangeTemplate.mmStep sampleCanvasSquare
        { tmpl := { sampleBlast with x := 4, y := 6 }, moveTime := 100,
          refreshCount := 1 } 120 (50, 60) =
      Except.ok
        { tmpl := { sampleBlast with x := 4, y := 6 }, moveTime := 100,
          refreshCount := 1 } := by
  refine ⟨?_, by norm_num, ?_⟩
  · norm_num [WeaponRangeTemplate.mmStep, sampleBlast, sampleTemplate,
      sampleCanvasSquare, WeaponRangeTemplate.snapToCenter, exceptMap_ok,
      exceptBind_ok]
  · norm_num [WeaponRangeTemplate.mmStep]

/-- C4 (amended): a move event delivered at most 20 ms after the last
applied update is a no-op that leaves the state unchanged; one delivered
strictly more than 20 ms after applies a snap/refresh, incrementing the
refresh count and recording the new timestamp. -/
theorem mmStep_throttle (cs : CanvasState) (s : PreviewState) (now : ℤ)
    (p : ℚ × ℚ) (hready : cs.ready = true) :
    (now - s.moveTime ≤ 20 →
      WeaponRangeTemplate.mmStep cs s now p = Except.ok s) ∧
    (now - s.moveTime > 20 →
      ∃ s', WeaponRangeTemplate.mmStep cs s now p = Except.ok s' ∧
        s'.refreshCount = s.refreshCount + 1 ∧ s'.moveTime = now) := by
  constructor
  · intro h
    simp [WeaponRangeTemplate.mmStep, h]
  · intro h
    have hnot : ¬ (now - s.moveTime ≤ 20) := by omega
    simp only [WeaponRangeTemplate.mmStep, hnot, if_false]
    cases hb : s.tmpl.isBurst with
    | true =>
      obtain ⟨⟨snapped, tmpl'⟩, hr⟩ :=
        snapToToken_ready_ok cs s.tmpl p hready
      simp only [hb, if_true]
      rw [hr, exceptBind_ok]
      exact ⟨_, rfl, rfl, rfl⟩
    | false =>
      simp only [hb, Bool.false_eq_true, if_false]
      rw [snapToCenter_ready cs p hready, exceptMap_ok, exceptBind_ok]
      exact ⟨_, rfl, rfl, rfl⟩

/-- Witness for C4 on a concrete canvas: a second event 10 ms after the
last applied update is a no-op, and one 50 ms after applies. -/
theorem mmStep_throttle_witness :
    WeaponRangeTemplate.mmStep sampleCanvasSquare
        { tmpl := sampleBlast, moveTime := 0, refreshCount := 5 } 10
        (3, 4) =
      Except.ok
        { tmpl := sampleBlast, moveTime := 0, refreshCount := 5 } ∧
    ∃ s', WeaponRangeTemplate.mmStep sampleCanvasSquare
        { tmpl := sampleBlast, moveTime := 0, refreshCount := 5 } 50
        (3, 4) = Except.ok s' ∧
      s'.refreshCount = 5 + 1 ∧ s'.moveTime = 50 := by
  constructor
  · exact (mmStep_throttle sampleCanvasSquare
      { tmpl := sampleBlast, moveTime := 0, refreshCount := 5 } 10 (3, 4)
      rfl).1 (by norm_num)
  · exact (mmStep_throttle sampleCanvasSquare
      { tmpl := sampleBlast, moveTime := 0, refreshCount := 5 } 50 (3, 4)
      rfl).2 (by norm_num)

/-- C10: a template built by `fromRange` has `isBurst = true` exactly
when the range type string is "Burst"; a "Blast" template has
`isBurst = false`, so an applied move update routes through
`snapToCenter` (grid-cell centers), never through token snapping, even
though it renders as a circle. -/
theorem fromRange_isBurst_iff (gs : GameState) (cs : CanvasState)
    (type : String) (val : ℚ) (hready : cs.ready = true) :
    (∀ tmpl, WeaponRangeTemplate.fromRange gs cs type val = some tmpl →
      (tmpl.isBurst = true ↔ type = "Burst")) ∧
    (∀ tmpl, WeaponRangeTemplate.fromRange gs cs "Blast" val = some tmpl →
      tmpl.isBurst = false) ∧
    (∀ s : PreviewState, ∀ now : ℤ, ∀ p : ℚ × ℚ,
      s.tmpl.isBurst = false → now - s.moveTime > 20 →
      WeaponRangeTemplate.mmStep cs s now p =
        (WeaponRangeTemplate.snapToCenter cs p).map (fun c =>
          { tmpl := { s.tmpl with x := c.1, y := c.2 }, moveTime := now,
            refreshCount := s.refreshCount + 1 })) := by
  have hburst : ∀ ty : String, ∀ tmpl,
      WeaponRangeTemplate.fromRange gs cs ty val = some tmpl →
      tmpl.isBurst = decide (ty = "Burst") := by
    intro ty tmpl h
    simp only [WeaponRangeTemplate.fromRange, hready, Bool.not_true,
      Bool.false_eq_true, if_false] at h
    cases hr : WeaponRangeTemplate.rangeShape ty with
    | none => rw [hr] at h; cases h
    | some shape =>
      rw [hr] at h
      cases h
      rfl
  refine ⟨?_, ?_, ?_⟩
  · intro tmpl h
    rw [hburst type tmpl h]
    simp
  · intro tmpl h
    rw [hburst "Blast" tmpl h]
    decide
  · intro s now p hb h
    have hnot : ¬ (now - s.moveTime ≤ 20) := by omega
    simp only [WeaponRangeTemplate.mmStep, hnot, if_false, hb,
      Bool.false_eq_true]
    cases hsc : WeaponRangeTemplate.snapToCenter cs p with
    | error e => simp [exceptMap_error, exceptBind_error]
    | ok c => simp [exceptMap_ok, exceptBind_ok, hb]

/-- Witness for C10: on a concrete ready canvas, the "Blast" template is
not a burst while the "Burst" template is. -/
theorem fromRange_isBurst_iff_witness :
    (∃ tmpl, WeaponRangeTemplate.fromRange sampleGame sampleCanvasSquare
        "Blast" 5 = some tmpl ∧ tmpl.isBurst = false) ∧
    (∃ tmpl, WeaponRangeTemplate.fromRange sampleGame sampleCanvasSquare
        "Burst" 5 = some tmpl ∧ tmpl.isBurst = true) := by
  have h := fromRange_isBurst_iff sampleGame sampleCanvasSquare "Burst" 5
    rfl
  constructor
  · cases hfr : WeaponRangeTemplate.fromRange sampleGame
        sampleCanvasSquare "Blast" 5 with
    | none => cases hfr
    | some tmpl => exact ⟨tmpl, rfl, h.2.1 tmpl hfr⟩
  · cases hfr : WeaponRangeTemplate.fromRange sampleGame
        sampleCanvasSquare "Burst" 5 with
    | none => cases hfr
    | some tmpl => exact ⟨tmpl, rfl, (h.1 tmpl hfr).mpr rfl⟩
